import Mathlib

/-!
Shallow embedding of the scraping core of the Nigeria-Data-Scraper repository
(variants `super.py`, `jim.py`, `my.py`, `yap.py`), together with theorems
settling the frozen claims about its specification.

Python dictionaries are modelled as ordered association lists
(`List (String × String)`); Python dictionary update `d[k] = v` is `dict_set`
(overwrite in place if the key exists, else append) and `dict(items)` is
`dict_of_items`.  Per-source scraping outcomes are modelled as
`Except String (List Record)`: `Except.error` stands for a task that raised,
`Except.ok` for a task that returned a (possibly empty) record list.  Network
and library effects (HTTP responses, PDF backends, `pandas` parses) are
passed in as explicit data, in completion order for the concurrent loop.
-/

namespace NigeriaScraper

/-- A scraped record: a Python dict from field name to stringly value.
(`super.py` builds records as dicts of strings and numbers; numbers are
stringified where they enter the model.) -/
abbrev Record := List (String × String)

/-- Python `d[k] = v` on a dict modelled as an ordered association list:
if `k` is present its value is overwritten in place, otherwise the pair is
appended at the end (Python dicts preserve insertion order). -/
def dict_set (r : Record) (k v : String) : Record :=
  if r.any (fun p => p.1 = k) then
    r.map (fun p => if p.1 = k then (k, v) else p)
  else r ++ [(k, v)]

/-- Python `dict(items)`: keys keep the position of their first occurrence,
values are the last assignment. -/
def dict_of_items (l : List (String × String)) : Record :=
  l.foldl (fun acc p => dict_set acc p.1 p.2) []

/-- `r` has a field named `k`. -/
def has_key (r : Record) (k : String) : Bool :=
  r.any (fun p => p.1 = k)

/-! ## Accessibility prefilter (`test_website_accessibility`, `super.py`
lines 489-496 and `yap.py` lines 779-786, identical code)

```python
def test_website_accessibility(self, url):
    try:
        response = self.request_session.session.head(url, timeout=5)
        return response.status_code < 400
    except:
        return False
```

The HEAD request's outcome is modelled as `Option Nat`: `some code` when the
request completed with HTTP status `code`, `none` when it raised (connection
error, DNS failure, timeout, ...).  The bare `except:` catches every
exception, so the Python function is total, which the model reflects by
being a total Lean function. -/
def test_website_accessibility (response : Option Nat) : Bool :=
  match response with
  | some status_code => status_code < 400
  | none => false

/-! ## Deduplication (`df.drop_duplicates()` in
`smart_scrape_multiple_websites`, `super.py` line 1238 / `jim.py` line 1087)

`pandas.DataFrame.drop_duplicates` keeps each row whose full field tuple has
not occurred in an earlier row, and removes the rest. -/

/-- The scan underlying `drop_duplicates`: keep an element iff it is not in
the set of elements already seen. -/
def drop_duplicates_go [DecidableEq α] : List α → List α → List α
  | _, [] => []
  | seen, a :: l =>
      if a ∈ seen then drop_duplicates_go seen l
      else a :: drop_duplicates_go (a :: seen) l

/-- `drop_duplicates` keeps the first occurrence of each element and removes
every later exact duplicate, like `pandas.DataFrame.drop_duplicates`. -/
def drop_duplicates [DecidableEq α] (l : List α) : List α :=
  drop_duplicates_go [] l

/-! ## Query filtering (`extract_html_data`, `super.py` lines 958-966)

```python
if search_query and data:
    filtered_data = []
    search_terms = search_query.lower().split()
    for item in data:
        item_str = str(item).lower()
        if any(term in item_str for term in search_terms):
            filtered_data.append(item)
    data = filtered_data
```

The extractor's records are arbitrary values `α` whose Python `str()` form is
supplied as an explicit function `to_str` (the filter logic does not depend
on the precise dict rendering). -/

/-- Python `str.split()` whitespace (without arguments it splits on runs of
whitespace and drops empty pieces). -/
def py_is_space (c : Char) : Bool :=
  c = ' ' || c = '\t' || c = '\n' || c = '\r' || c = '\x0b' || c = '\x0c'

/-- Python `str.lower()`, character by character. -/
def py_lower (s : String) : String :=
  String.mk (s.toList.map Char.toLower)

/-- Worker for `py_split_ws`: `acc` holds the current word reversed. -/
def py_split_ws_go : List Char → List Char → List String
  | acc, [] => if acc.isEmpty then [] else [String.mk acc.reverse]
  | acc, c :: rest =>
      if py_is_space c then
        if acc.isEmpty then py_split_ws_go [] rest
        else String.mk acc.reverse :: py_split_ws_go [] rest
      else py_split_ws_go (c :: acc) rest

/-- Python `str.split()` with no arguments: split on runs of whitespace,
dropping empty pieces. -/
def py_split_ws (s : String) : List String :=
  py_split_ws_go [] s.toList

/-- `search_query.lower().split()`. -/
def search_terms (search_query : String) : List String :=
  py_split_ws (py_lower search_query)

/-- Python substring test `needle in hay`. -/
def py_in (needle hay : String) : Bool :=
  decide (needle.toList <:+: hay.toList)

/-- One record survives the query filter: some lowercased query token occurs
as a substring of the record's lowercased string form. -/
def matches_query (to_str : α → String) (search_query : String) (item : α) : Bool :=
  (search_terms search_query).any (fun term => py_in term (py_lower (to_str item)))

/-- The query-filter step at the end of `extract_html_data`: applied only when
both the query and the data are non-empty (Python truthiness of
`search_query and data`), it keeps exactly the records matching some query
token. -/
def filter_by_search_query (to_str : α → String) (search_query : String)
    (data : List α) : List α :=
  if !search_query.isEmpty && !data.isEmpty then
    data.filter (fun item => matches_query to_str search_query item)
  else data

/-! ## Candidate selection (`smart_scrape_multiple_websites`, `super.py`
lines 1190-1199)

```python
if selected_categories:
    filtered_websites = [w for w in all_websites
                       if w.get('category') in selected_categories]
else:
    filtered_websites = all_websites
filtered_websites.sort(key=lambda x: x.get('priority', 99))
websites_to_scrape = filtered_websites[:max_websites]
```
-/

/-- One entry of the static website catalog (`get_nigerian_statistical_websites`).
`priority` is optional because the code reads it as `x.get('priority', 99)`. -/
structure Website where
  name : String
  url : String
  scrape_method : String
  category : String
  priority : Option Nat
deriving DecidableEq, Repr

/-- `x.get('priority', 99)`, the sort key. -/
def priority_key (w : Website) : Nat :=
  w.priority.getD 99

/-- Ordering used by `filtered_websites.sort(key=...)`. -/
def priority_le (a b : Website) : Prop :=
  priority_key a ≤ priority_key b

instance : DecidableRel priority_le :=
  fun a b => inferInstanceAs (Decidable (priority_key a ≤ priority_key b))

instance : IsTotal Website priority_le :=
  ⟨fun a b => Nat.le_total (priority_key a) (priority_key b)⟩

instance : IsTrans Website priority_le :=
  ⟨fun _ _ _ => Nat.le_trans⟩

/-- The category filter: pass-through when `selected_categories` is falsy
(empty / `None`), else keep entries whose category is in the set. -/
def filter_by_categories (all_websites : List Website)
    (selected_categories : List String) : List Website :=
  if selected_categories ≠ [] then
    all_websites.filter (fun w => selected_categories.contains w.category)
  else all_websites

/-- Candidate selection: filter by categories, sort ascending by
`priority` (default 99), truncate to `max_websites`.  Python `list.sort` is a
stable ascending sort by the key; it is modelled with `List.insertionSort`,
which is also stable. -/
def select_websites (all_websites : List Website)
    (selected_categories : List String) (max_websites : Nat) : List Website :=
  ((filter_by_categories all_websites selected_categories).insertionSort
    priority_le).take max_websites

/-! ## Orchestrator fan-in (`smart_scrape_multiple_websites`,
`super.py` lines 1207-1244 and `jim.py` lines 1056-1089)

The concurrent loop submits one `scrape_website` task per candidate and
collects results with `as_completed`:

```python
try:
    website_data = future.result()
    if website_data:
        all_data.extend(website_data)
        ...
except Exception as e:
    self.log(...)
```

A completed task is modelled as `Except String (List Record)`:
`Except.error msg` when `future.result()` re-raises the task's exception,
`Except.ok records` otherwise.  `outcomes` lists the tasks in completion
order. -/

/-- Outcome of one source's fetch-and-extract task. -/
abbrev SourceOutcome := Except String (List Record)

/-- The fan-in loop: extend `all_data` with each successful task's records,
log-and-skip tasks that raised. -/
def collect_results : List SourceOutcome → List Record
  | [] => []
  | Except.ok website_data :: rest => website_data ++ collect_results rest
  | Except.error _ :: rest => collect_results rest

/-- `get_sample_data` (`super.py` lines 1246-1308): the hardcoded records
returned when scraping found nothing.  `timestamp` stands for
`datetime.now().strftime('%Y-%m-%d')`. -/
def get_sample_data (search_query : String) (timestamp : String) : List Record :=
  let base : List Record :=
    [ [("Statistical_Match", "GDP growth: 2.5%"),
       ("Category", "Economic"),
       ("Source_URL", "https://data.worldbank.org/country/nigeria"),
       ("Pattern_Type", "GDP.*growth"),
       ("Scrape_Date", timestamp),
       ("Source_Website", "World Bank Nigeria Data"),
       ("Scrape_Method", "direct"),
       ("Note", "Sample data - actual website scraping failed")],
      [("Statistical_Match", "Population: 223 million"),
       ("Category", "Demographic"),
       ("Source_URL", "https://data.un.org/en/iso/ng.html"),
       ("Pattern_Type", "population.*million"),
       ("Scrape_Date", timestamp),
       ("Source_Website", "UN Data Nigeria"),
       ("Scrape_Method", "direct"),
       ("Note", "Sample data - actual website scraping failed")],
      [("Statistical_Match", "Inflation rate: 28.9%"),
       ("Category", "Economic"),
       ("Source_URL", "https://www.imf.org/en/Countries/NGA"),
       ("Pattern_Type", "inflation.*rate"),
       ("Scrape_Date", timestamp),
       ("Source_Website", "IMF Nigeria"),
       ("Scrape_Method", "direct"),
       ("Note", "Sample data - actual website scraping failed")] ]
  let with_gdp :=
    if py_in "gdp" (py_lower search_query) then
      base ++ [ [("Statistical_Match", "GDP 2023: $477 billion"),
                 ("Category", "Economic"),
                 ("Source_URL", "https://www.nigerianstat.gov.ng"),
                 ("Pattern_Type", "GDP.*billion"),
                 ("Scrape_Date", timestamp),
                 ("Source_Website", "National Bureau of Statistics"),
                 ("Scrape_Method", "direct"),
                 ("Note", "Sample data - actual website scraping failed")] ]
    else base
  if py_in "population" (py_lower search_query) then
    with_gdp ++ [ [("Statistical_Match", "Population density: 226/km²"),
                   ("Category", "Demographic"),
                   ("Source_URL", "https://data.worldbank.org/country/nigeria"),
                   ("Pattern_Type", "Population.*density"),
                   ("Scrape_Date", timestamp),
                   ("Source_Website", "World Bank"),
                   ("Scrape_Method", "direct"),
                   ("Note", "Sample data - actual website scraping failed")] ]
  else with_gdp

/-- Tail of `super.py`'s `smart_scrape_multiple_websites` (lines 1235-1244):
deduplicate and return the merged records when any were found, otherwise
return `get_sample_data`:

```python
if all_data:
    df = pd.DataFrame(all_data)
    df = df.drop_duplicates()
    return df
self.log("⚠️ No data found from websites, returning sample data")
sample_data = self.get_sample_data(search_query)
return pd.DataFrame(sample_data)
```
-/
def smart_scrape_multiple_websites_super (outcomes : List SourceOutcome)
    (search_query : String) (timestamp : String) : List Record :=
  if !(collect_results outcomes).isEmpty then
    drop_duplicates (collect_results outcomes)
  else get_sample_data search_query timestamp

/-- Tail of `jim.py`'s `smart_scrape_multiple_websites` (lines 1084-1089):
deduplicate and return when any records were found, otherwise return `None`
(modelled as `Option`). -/
def smart_scrape_multiple_websites_jim (outcomes : List SourceOutcome) :
    Option (List Record) :=
  if !(collect_results outcomes).isEmpty then
    some (drop_duplicates (collect_results outcomes))
  else none

/-! ## PDF extraction (`scrape_pdf`, `super.py` lines 498-562, and
`_extract_basic_pdf_text`, lines 702-728)

```python
for method in methods:
    try:
        data = method(pdf_content, url)
        if data and len(data) > 0:
            pdf_data.extend(data)
            ...
            break
    except Exception as e:
        ...
        continue
if not pdf_data:
    basic_text = self._extract_basic_pdf_text(pdf_content)
    if basic_text:
        pdf_data.append({...})
```

Each `_parse_pdf_with_*` backend call is modelled by its outcome
`Except String (List Record)` (`error` = the call raised, `ok` = the record
list it returned), listed in the fixed priority order in which `methods`
was built (pdfplumber, PyPDF2, pdfminer, PyMuPDF, textract). -/

/-- A backend outcome that does not stop the loop: it raised, or returned an
empty list. -/
def fails_or_empty : Except String (List Record) → Bool
  | Except.error _ => true
  | Except.ok data => data.isEmpty

/-- The backend loop of `scrape_pdf`: first backend returning a non-empty
list wins; backends that raise or return nothing are skipped. -/
def try_pdf_methods : List (Except String (List Record)) → List Record
  | [] => []
  | Except.error _ :: rest => try_pdf_methods rest
  | Except.ok data :: rest =>
      if !data.isEmpty then data else try_pdf_methods rest

/-- Scanner for `re.findall(r'\((.*?)\)', pdf_str)`: from the character after
a literal opening parenthesis, capture lazily up to the nearest closing
parenthesis; `.` does not match a newline, so a newline before any close
makes the match attempt fail.  Returns the captured characters and the
remainder after the close. -/
def find_close : List Char → Option (List Char × List Char)
  | [] => none
  | c :: rest =>
      if c = ')' then some ([], rest)
      else if c = '\n' then none
      else (find_close rest).map (fun p => (c :: p.1, p.2))

/-- Bound used to justify termination of the scan: a successful `find_close`
consumes at least the closing parenthesis. -/
def find_close_shrinks : ∀ (l : List Char) (p : List Char × List Char),
    find_close l = some p → p.2.length < l.length := by
  intro l
  induction l with
  | nil => intro p h; simp [find_close] at h
  | cons c0 rest0 ih =>
    intro p h
    unfold find_close at h
    by_cases hc : c0 = ')'
    · rw [if_pos hc] at h
      cases h
      simp
    · rw [if_neg hc] at h
      by_cases hn : c0 = '\n'
      · rw [if_pos hn] at h; cases h
      · rw [if_neg hn] at h
        match hfc2 : find_close rest0 with
        | none => rw [hfc2] at h; cases h
        | some q =>
          rw [hfc2] at h
          cases h
          exact Nat.lt_succ_of_lt (ih q hfc2)

/-- All captured groups of `re.findall(r'\((.*?)\)', pdf_str)`, in order:
scan for an opening parenthesis, capture to the nearest close (failing on a
newline), continue after the match (or after the open when the attempt
fails). -/
def paren_matches : List Char → List (List Char)
  | [] => []
  | c :: rest =>
      if c = '(' then
        match hfc : find_close rest with
        | some (captured, after) => captured :: paren_matches after
        | none => paren_matches rest
      else paren_matches rest
termination_by l => l.length
decreasing_by
  · simpa using Nat.lt_succ_of_lt (find_close_shrinks rest (captured, after) hfc)
  · simp
  · simp

/-- `_extract_basic_pdf_text` (`super.py` lines 702-728): return the raw page
text of a PyPDF2 pass when it completes; only when that pass raises (or the
library is absent) fall back to joining the first 30 parenthesis-delimited
spans of the latin-1 decoded byte stream.  `pypdf2_text` is the outcome of
the PyPDF2 pass, `raw` the decoded byte stream. -/
def extract_basic_pdf_text (pypdf2_text : Except String String)
    (raw : List Char) : String :=
  match pypdf2_text with
  | Except.ok text => text
  | Except.error _ =>
      " ".intercalate (((paren_matches raw).take 30).map (fun cs => String.mk cs))

/-- `basic_text[:500] + '...' if len(basic_text) > 500 else basic_text`. -/
def truncate_excerpt (s : String) : String :=
  if s.length > 500 then s.take 500 ++ "..." else s

/-- The single fallback record appended by `scrape_pdf` when every backend
failed and `_extract_basic_pdf_text` found text. -/
def basic_fallback_records (pypdf2_text : Except String String)
    (raw : List Char) (url timestamp : String) : List Record :=
  if !(extract_basic_pdf_text pypdf2_text raw).isEmpty then
    [ [("PDF_URL", url),
       ("Content_Type", "PDF"),
       ("Extracted_Text", truncate_excerpt (extract_basic_pdf_text pypdf2_text raw)),
       ("Note", "Basic text extraction"),
       ("Scrape_Date", timestamp)] ]
  else []

/-- `scrape_pdf` from the point where the PDF bytes are in hand: run the
backend loop; if it produced nothing, emit the at-most-one basic-extraction
record. -/
def scrape_pdf_from_content (methods : List (Except String (List Record)))
    (pypdf2_text : Except String String) (raw : List Char)
    (url timestamp : String) : List Record :=
  if !(try_pdf_methods methods).isEmpty then try_pdf_methods methods
  else basic_fallback_records pypdf2_text raw url timestamp

/-- One statistic record built by `_parse_pdf_with_pdfplumber`
(`super.py` lines 574-582); every record of this backend carries
`'Parser': 'pdfplumber'`. -/
def parse_pdf_with_pdfplumber_record (url : String) (page : Nat)
    (stat timestamp : String) : Record :=
  [("PDF_URL", url),
   ("Page", toString page),
   ("Content_Type", "PDF_statistic"),
   ("Extracted_Data", stat),
   ("Parser", "pdfplumber"),
   ("Scrape_Date", timestamp)]

/-- Three pdfplumber records for a document with three statistic matches
on its first page: the scenario of claim C7. -/
def demo_pdfplumber_records : List Record :=
  [parse_pdf_with_pdfplumber_record "https://nigerianstat.gov.ng/report.pdf" 1
     "28.9%" "2024-01-01",
   parse_pdf_with_pdfplumber_record "https://nigerianstat.gov.ng/report.pdf" 1
     "223 million" "2024-01-01",
   parse_pdf_with_pdfplumber_record "https://nigerianstat.gov.ng/report.pdf" 1
     "2.5%" "2024-01-01"]

/-! ## Table extraction (`TableScraper.extract_all_tables`, `my.py`
lines 453-482)

```python
# Method 1: Use pandas read_html
try:
    df_list = pd.read_html(str(soup), flavor='html5lib')
    for i, df in enumerate(df_list):
        if not df.empty and len(df) > 1:
            if self._table_matches_search(df, search_terms):
                table_info = self._process_table(df, i, url, "pandas")
                tables_data.append(table_info)
except:
    pass
# Method 2: Manual extraction
html_tables = soup.find_all('table')
for table_idx, table in enumerate(html_tables):
    try:
        table_data = self._extract_table_manually(table, table_idx, url)
        if table_data and self._table_matches_search(table_data['dataframe'], search_terms):
            tables_data.append(table_data)
    except:
        continue
```

An HTML page is modelled by its list of `<table>` elements, each a list of
rows, each row a list of cell texts.  `pandas.read_html` on a well-formed
page yields one DataFrame per table, using the table's first row as the
header and the remaining rows as data rows; `df.to_string()` (used only for
search matching) is supplied as an explicit function `df_to_string`. -/

/-- One `<table>` element: rows of cell texts. -/
abbrev HtmlTable := List (List String)

/-- A `pandas` DataFrame as produced by `read_html`. -/
structure Df where
  columns : List String
  data_rows : List (List String)
deriving DecidableEq, Repr

/-- `pd.read_html` on one syntactically valid table: first row becomes the
header, the rest the data rows. -/
def read_html_table (t : HtmlTable) : Df :=
  ⟨t.headD [], t.tail⟩

/-- `not df.empty and len(df) > 1`: `len(df)` counts data rows, and a frame
with no columns is empty. -/
def df_qualifies (df : Df) : Bool :=
  !df.columns.isEmpty && decide (1 < df.data_rows.length)

/-- `_table_matches_search` (`my.py` lines 553-571): empty search terms match
everything; otherwise some term must occur in the lowercased
`df.to_string()` or in the lowercased space-joined column names. -/
def table_matches_search (df_to_string : Df → String) (df : Df)
    (terms : List String) : Bool :=
  if terms.isEmpty then true
  else
    let df_str := py_lower (df_to_string df)
    if terms.any (fun term => py_in (py_lower term) df_str) then true
    else
      let columns_str := py_lower (" ".intercalate df.columns)
      terms.any (fun term => py_in (py_lower term) columns_str)

/-- One entry of `tables_data` (the repository's ExtractedTable):
`_process_table` / `_extract_table_manually` wrap the frame with metadata of
which the name and the extraction method are the ones the claims are about. -/
structure ExtractedTable where
  table_name : String
  extraction_method : String
  source_url : String
  df : Df
deriving DecidableEq, Repr

/-- `_process_table(df, i, url, "pandas")` (`my.py` lines 484-502), with
`dropna(how='all')` the identity on frames whose cells are all non-empty
strings (the regime of the claims). -/
def process_table (df : Df) (table_index : Nat) (url : String) : ExtractedTable :=
  ⟨"Table_" ++ toString (table_index + 1), "pandas", url, df⟩

/-- Header cell fallback `cell.get_text(strip=True) or f"Column_{i+1}"`. -/
def header_name (i : Nat) (cell : String) : String :=
  if cell.isEmpty then "Column_" ++ toString (i + 1) else cell

/-- `_extract_table_manually` (`my.py` lines 504-551): `None` for tables with
fewer than 2 rows or no data; else an entry named `Table_{idx+1}_manual`
with headers from the first row and one data row per non-empty `<tr>`. -/
def extract_table_manually (t : HtmlTable) (table_index : Nat)
    (url : String) : Option ExtractedTable :=
  if t.length < 2 then none
  else
    let headers := (t.headD []).mapIdx header_name
    let data := t.tail.filter (fun row => !row.isEmpty)
    if data.isEmpty then none
    else some ⟨"Table_" ++ toString (table_index + 1) ++ "_manual", "manual",
               url, ⟨headers, data.map (fun row => row.take headers.length)⟩⟩

/-- Method 1 of `extract_all_tables`: the `enumerate(df_list)` loop. -/
def pandas_pass (df_to_string : Df → String) (terms : List String)
    (url : String) : Nat → List HtmlTable → List ExtractedTable
  | _, [] => []
  | i, t :: rest =>
      let df := read_html_table t
      if df_qualifies df && table_matches_search df_to_string df terms then
        process_table df i url :: pandas_pass df_to_string terms url (i + 1) rest
      else pandas_pass df_to_string terms url (i + 1) rest

/-- Method 2 of `extract_all_tables`: the `enumerate(html_tables)` loop. -/
def manual_pass (df_to_string : Df → String) (terms : List String)
    (url : String) : Nat → List HtmlTable → List ExtractedTable
  | _, [] => []
  | i, t :: rest =>
      match extract_table_manually t i url with
      | some entry =>
          if table_matches_search df_to_string entry.df terms then
            entry :: manual_pass df_to_string terms url (i + 1) rest
          else manual_pass df_to_string terms url (i + 1) rest
      | none => manual_pass df_to_string terms url (i + 1) rest

/-- `extract_all_tables` (`my.py` lines 453-482): Method 1 (pandas) and then
Method 2 (manual) over the same tables, both appending to `tables_data`. -/
def extract_all_tables_my (page : List HtmlTable) (terms : List String)
    (df_to_string : Df → String) (url : String) : List ExtractedTable :=
  pandas_pass df_to_string terms url 0 page ++
    manual_pass df_to_string terms url 0 page

/-! ## JSON flattening (`flatten_dict`, `super.py` lines 1043-1058 and
`jim.py` lines 952-967) and `parse_json_data` (`super.py` lines 970-990)

```python
def flatten_dict(self, d, parent_key='', sep='_'):
    items = []
    for k, v in d.items():
        new_key = f"{parent_key}{sep}{k}" if parent_key else k
        if isinstance(v, dict):
            items.extend(self.flatten_dict(v, new_key, sep=sep).items())
        elif isinstance(v, list):
            for i, item in enumerate(v[:2]):   # jim.py: v[:3]
                if isinstance(item, dict):
                    items.extend(self.flatten_dict(item, f"{new_key}_{i}", sep=sep).items())
                else:
                    items.append((f"{new_key}_{i}", str(item)))
        else:
            items.append((new_key, str(v)))
    return dict(items)
```

The two variants differ only in the list slice bound (`v[:2]` in `super.py`,
`v[:3]` in `jim.py`), so the loop is modelled once with the bound as a
parameter; the `enumerate(v[:cap])` slice is encoded by a descending budget
counter alongside the ascending index.  Python values decoded from JSON are
modelled by `PyVal` (floats are left out; no claim depends on them). -/

/-- A Python value as produced by `response.json()`. -/
inductive PyVal where
  | str (s : String)
  | int (n : Int)
  | bool (b : Bool)
  | none
  | list (items : List PyVal)
  | dict (fields : List (String × PyVal))
deriving Repr

/-- The apostrophe Python `repr` puts around strings. -/
def py_quote : String := String.singleton (Char.ofNat 39)

/-- Opening brace of a Python dict literal. -/
def py_lbrace : String := String.singleton (Char.ofNat 123)

/-- Closing brace of a Python dict literal. -/
def py_rbrace : String := String.singleton (Char.ofNat 125)

mutual

/-- Python `str(v)` (containers render their literal form; `repr` of element
strings is modelled without escape sequences, which no claim depends on). -/
def py_str : PyVal → String
  | PyVal.str s => s
  | PyVal.int n => toString n
  | PyVal.bool b => if b then "True" else "False"
  | PyVal.none => "None"
  | PyVal.list items => "[" ++ ", ".intercalate (py_repr_list items) ++ "]"
  | PyVal.dict fields => py_lbrace ++ ", ".intercalate (py_repr_fields fields) ++ py_rbrace

/-- Python `repr(v)`. -/
def py_repr : PyVal → String
  | PyVal.str s => py_quote ++ s ++ py_quote
  | PyVal.int n => toString n
  | PyVal.bool b => if b then "True" else "False"
  | PyVal.none => "None"
  | PyVal.list items => "[" ++ ", ".intercalate (py_repr_list items) ++ "]"
  | PyVal.dict fields => py_lbrace ++ ", ".intercalate (py_repr_fields fields) ++ py_rbrace

/-- `repr` of each element of a list. -/
def py_repr_list : List PyVal → List String
  | [] => []
  | v :: rest => py_repr v :: py_repr_list rest

/-- `repr` of each `key: value` entry of a dict. -/
def py_repr_fields : List (String × PyVal) → List String
  | [] => []
  | (k, v) :: rest =>
      (py_quote ++ k ++ py_quote ++ ": " ++ py_repr v) :: py_repr_fields rest

end

mutual

/-- The `for k, v in d.items()` loop of `flatten_dict`, accumulating `items`;
`cap` is the list slice bound (2 in `super.py`, 3 in `jim.py`). -/
def flatten_items (cap : Nat) : List (String × PyVal) → String → List (String × String)
  | [], _ => []
  | (k, v) :: rest, parent_key =>
      let new_key := if parent_key.isEmpty then k else parent_key ++ "_" ++ k
      flatten_val cap v new_key ++ flatten_items cap rest parent_key

/-- Dispatch on one value `v` of the loop body. -/
def flatten_val (cap : Nat) : PyVal → String → List (String × String)
  | PyVal.dict fields, new_key => dict_of_items (flatten_items cap fields new_key)
  | PyVal.list items, new_key => flatten_list cap items new_key 0 cap
  | PyVal.str s, new_key => [(new_key, py_str (PyVal.str s))]
  | PyVal.int n, new_key => [(new_key, py_str (PyVal.int n))]
  | PyVal.bool b, new_key => [(new_key, py_str (PyVal.bool b))]
  | PyVal.none, new_key => [(new_key, py_str PyVal.none)]

/-- The `for i, item in enumerate(v[:cap])` loop; the remaining slice budget
descends while the index `i` ascends. -/
def flatten_list (cap : Nat) : List PyVal → String → Nat → Nat → List (String × String)
  | _, _, _, 0 => []
  | [], _, _, _ => []
  | item :: rest, new_key, i, budget + 1 =>
      (match item with
       | PyVal.dict fields =>
           dict_of_items (flatten_items cap fields (new_key ++ "_" ++ toString i))
       | other => [(new_key ++ "_" ++ toString i, py_str other)])
      ++ flatten_list cap rest new_key (i + 1) budget

end

/-- `flatten_dict` of `super.py` (list slice `v[:2]`). -/
def flatten_dict_super (d : List (String × PyVal)) (parent_key : String) :
    List (String × String) :=
  dict_of_items (flatten_items 2 d parent_key)

/-- `flatten_dict` of `jim.py` (list slice `v[:3]`). -/
def flatten_dict_jim (d : List (String × PyVal)) (parent_key : String) :
    List (String × String) :=
  dict_of_items (flatten_items 3 d parent_key)

/-- `parse_json_data` (`super.py` lines 970-990): flatten each of the first
5 dicts of a top-level list (non-dict entries are skipped), or the single
top-level dict; tag with `Source_URL` and `Data_Type`. -/
def parse_json_data (json_data : PyVal) (url : String) : List Record :=
  match json_data with
  | PyVal.list items =>
      (items.take 5).filterMap (fun item =>
        match item with
        | PyVal.dict fields =>
            some (dict_set (dict_set (flatten_dict_super fields "")
                    "Source_URL" url) "Data_Type" "JSON")
        | _ => Option.none)
  | PyVal.dict fields =>
      [dict_set (dict_set (flatten_dict_super fields "")
         "Source_URL" url) "Data_Type" "JSON"]
  | _ => []

/-! ## Provenance tagging (`scrape_website`, `super.py` lines 730-771)

```python
for item in website_data:
    item['Source_Website'] = name
    item['Source_URL'] = url
    item['Scrape_Method'] = scrape_method
```
-/

/-- The provenance fields `scrape_website` writes into every record an
extractor returned. -/
def add_source_info (name url scrape_method : String) (r : Record) : Record :=
  dict_set (dict_set (dict_set r "Source_Website" name)
    "Source_URL" url) "Scrape_Method" scrape_method

/-- `scrape_website`'s record post-processing applied to whatever the
dispatched extractor produced. -/
def scrape_website_records (name url scrape_method : String)
    (extracted : List Record) : List Record :=
  extracted.map (add_source_info name url scrape_method)

/-- `scrape_website` on a source whose fetch yielded a JSON body: the
`application/json` branch of `scrape_with_requests` feeds `parse_json_data`,
then `scrape_website` adds the provenance fields. -/
def scrape_website_json (name url scrape_method : String)
    (json_data : PyVal) : List Record :=
  scrape_website_records name url scrape_method (parse_json_data json_data url)

/-! ## Helper lemmas -/

theorem mem_drop_duplicates_go [DecidableEq α] :
    ∀ (l seen : List α) (a : α),
      a ∈ drop_duplicates_go seen l ↔ a ∈ l ∧ a ∉ seen := by
  intro l
  induction l with
  | nil => intro seen a; simp [drop_duplicates_go]
  | cons b l ih =>
    intro seen a
    unfold drop_duplicates_go
    by_cases hb : b ∈ seen
    · rw [if_pos hb, ih]
      constructor
      · rintro ⟨h1, h2⟩; exact ⟨List.mem_cons_of_mem _ h1, h2⟩
      · rintro ⟨h1, h2⟩
        rcases List.mem_cons.mp h1 with h1 | h1
        · exact absurd (h1 ▸ hb) h2
        · exact ⟨h1, h2⟩
    · rw [if_neg hb]
      constructor
      · intro h
        rcases List.mem_cons.mp h with h | h
        · exact ⟨h ▸ List.mem_cons_self _ _, h ▸ hb⟩
        · rcases (ih _ a).mp h with ⟨h1, h2⟩
          exact ⟨List.mem_cons_of_mem _ h1,
                 fun hc => h2 (List.mem_cons_of_mem _ hc)⟩
      · rintro ⟨h1, h2⟩
        by_cases hab : a = b
        · exact hab ▸ List.mem_cons_self _ _
        · rcases List.mem_cons.mp h1 with h1 | h1
          · exact absurd h1 hab
          · refine List.mem_cons_of_mem _ ((ih _ a).mpr ⟨h1, ?_⟩)
            intro hc
            rcases List.mem_cons.mp hc with hc | hc
            · exact hab hc
            · exact h2 hc

theorem mem_drop_duplicates [DecidableEq α] (X : List α) (a : α) :
    a ∈ drop_duplicates X ↔ a ∈ X := by
  unfold drop_duplicates
  rw [mem_drop_duplicates_go]
  simp

theorem nodup_drop_duplicates_go [DecidableEq α] :
    ∀ (l seen : List α), (drop_duplicates_go seen l).Nodup := by
  intro l
  induction l with
  | nil => intro seen; simp [drop_duplicates_go]
  | cons b l ih =>
    intro seen
    unfold drop_duplicates_go
    by_cases hb : b ∈ seen
    · rw [if_pos hb]; exact ih seen
    · rw [if_neg hb]
      refine List.nodup_cons.mpr ⟨?_, ih _⟩
      intro hc
      exact ((mem_drop_duplicates_go _ _ _).mp hc).2 (List.mem_cons_self _ _)

theorem nodup_drop_duplicates [DecidableEq α] (X : List α) :
    (drop_duplicates X).Nodup :=
  nodup_drop_duplicates_go X []

theorem drop_duplicates_go_eq_self [DecidableEq α] :
    ∀ (l seen : List α), l.Nodup → (∀ a ∈ l, a ∉ seen) →
      drop_duplicates_go seen l = l := by
  intro l
  induction l with
  | nil => intro seen _ _; rfl
  | cons b l ih =>
    intro seen hnd hdisj
    unfold drop_duplicates_go
    rw [if_neg (hdisj b (List.mem_cons_self _ _))]
    rcases List.nodup_cons.mp hnd with ⟨hb, hl⟩
    rw [ih (b :: seen) hl ?_]
    intro a ha hc
    rcases List.mem_cons.mp hc with hc | hc
    · exact hb (hc ▸ ha)
    · exact hdisj a (List.mem_cons_of_mem _ ha) hc

theorem drop_duplicates_of_nodup [DecidableEq α] (X : List α) (h : X.Nodup) :
    drop_duplicates X = X :=
  drop_duplicates_go_eq_self X [] h (fun _ _ hc => (List.not_mem_nil _) hc)

theorem drop_duplicates_idem [DecidableEq α] (X : List α) :
    drop_duplicates (drop_duplicates X) = drop_duplicates X :=
  drop_duplicates_of_nodup _ (nodup_drop_duplicates X)

theorem filter_by_search_query_no_query (to_str : α → String) (data : List α) :
    filter_by_search_query to_str "" data = data := by
  simp [filter_by_search_query, String.isEmpty]

theorem mem_filter_by_search_query (to_str : α → String) (search_query : String)
    (data : List α) (r : α) :
    r ∈ filter_by_search_query to_str search_query data ↔
      r ∈ data ∧ ((!search_query.isEmpty && !data.isEmpty) = true →
        matches_query to_str search_query r = true) := by
  unfold filter_by_search_query
  by_cases h : (!search_query.isEmpty && !data.isEmpty) = true
  · rw [if_pos h]
    rw [List.mem_filter]
    constructor
    · rintro ⟨h1, h2⟩; exact ⟨h1, fun _ => h2⟩
    · rintro ⟨h1, h2⟩; exact ⟨h1, h2 h⟩
  · rw [if_neg h]
    constructor
    · intro h1; exact ⟨h1, fun hc => absurd hc h⟩
    · rintro ⟨h1, _⟩; exact h1

theorem collect_results_append (xs ys : List SourceOutcome) :
    collect_results (xs ++ ys) = collect_results xs ++ collect_results ys := by
  induction xs with
  | nil => simp [collect_results]
  | cons x xs ih =>
    match x with
    | Except.ok d => simp [collect_results, ih]
    | Except.error e => simp [collect_results, ih]

theorem collect_results_error (e : String) :
    collect_results [Except.error e] = [] := rfl

theorem try_pdf_methods_all_fail :
    ∀ (methods : List (Except String (List Record))),
      (∀ o ∈ methods, fails_or_empty o = true) → try_pdf_methods methods = [] := by
  intro methods h
  induction methods with
  | nil => rfl
  | cons o rest ih =>
    have ho := h o (List.mem_cons_self _ _)
    have hrest : ∀ o ∈ rest, fails_or_empty o = true :=
      fun x hx => h x (List.mem_cons_of_mem _ hx)
    match o with
    | Except.error e => exact ih hrest
    | Except.ok data =>
      simp only [fails_or_empty] at ho
      simp [try_pdf_methods, ho, ih hrest]

theorem try_pdf_methods_first_success
    (pre rest : List (Except String (List Record))) (data : List Record)
    (hpre : ∀ o ∈ pre, fails_or_empty o = true) (hdata : data ≠ []) :
    try_pdf_methods (pre ++ Except.ok data :: rest) = data := by
  induction pre with
  | nil =>
    simp only [List.nil_append, try_pdf_methods]
    simp [hdata]
  | cons o pre ih =>
    have ho := hpre o (List.mem_cons_self _ _)
    have hpre' : ∀ x ∈ pre, fails_or_empty x = true :=
      fun x hx => hpre x (List.mem_cons_of_mem _ hx)
    match o with
    | Except.error e => simpa [try_pdf_methods] using ih hpre'
    | Except.ok d =>
      simp only [fails_or_empty] at ho
      simpa [try_pdf_methods, ho] using ih hpre'

theorem basic_fallback_records_length_le_one (pypdf2_text : Except String String)
    (raw : List Char) (url timestamp : String) :
    (basic_fallback_records pypdf2_text raw url timestamp).length ≤ 1 := by
  unfold basic_fallback_records
  by_cases h : (!(extract_basic_pdf_text pypdf2_text raw).isEmpty) = true
  · rw [if_pos h]; simp
  · rw [if_neg h]; simp

theorem pandas_pass_length_no_terms (df_to_string : Df → String) (url : String) :
    ∀ (i : Nat) (page : List HtmlTable),
      (pandas_pass df_to_string [] url i page).length =
        (page.filter (fun t => df_qualifies (read_html_table t))).length := by
  intro i page
  induction page generalizing i with
  | nil => rfl
  | cons t rest ih =>
    unfold pandas_pass
    have hmatch : table_matches_search df_to_string (read_html_table t) [] = true := by
      simp [table_matches_search]
    by_cases hq : df_qualifies (read_html_table t) = true
    · simp [hq, hmatch, List.filter_cons, ih]
    · simp only [hq, hmatch, Bool.false_and, if_false, List.filter_cons]
      rw [if_neg (by simpa using hq)]
      exact ih (i + 1)

theorem manual_pass_length_no_terms (df_to_string : Df → String) (url : String) :
    ∀ (i : Nat) (page : List HtmlTable),
      (∀ t ∈ page, 2 ≤ t.length ∧ ∀ row ∈ t, row ≠ []) →
      (manual_pass df_to_string [] url i page).length = page.length := by
  intro i page
  induction page generalizing i with
  | nil => intro _; rfl
  | cons t rest ih =>
    intro h
    obtain ⟨hlen, hrows⟩ := h t (List.mem_cons_self _ _)
    have hrest : ∀ x ∈ rest, 2 ≤ x.length ∧ ∀ row ∈ x, row ≠ [] :=
      fun x hx => h x (List.mem_cons_of_mem _ hx)
    have hsome : ∃ e, extract_table_manually t i url = some e := by
      unfold extract_table_manually
      rw [if_neg (by omega)]
      have hdata : ¬(t.tail.filter (fun row => !row.isEmpty)).isEmpty = true := by
        match t, hlen with
        | r1 :: r2 :: rs, _ =>
          have hr2 : r2 ≠ [] := hrows r2 (by simp)
          simp only [List.tail_cons, List.filter_cons]
          rw [if_pos (by simpa using hr2)]
          simp
      rw [if_neg hdata]
      exact ⟨_, rfl⟩
    obtain ⟨e, he⟩ := hsome
    unfold manual_pass
    rw [he]
    have hmatch : table_matches_search df_to_string e.df [] = true := by
      simp [table_matches_search]
    simp [hmatch, ih (i + 1) hrest]

theorem has_key_dict_set_same (r : Record) (k v : String) :
    has_key (dict_set r k v) k = true := by
  unfold dict_set has_key
  by_cases h : r.any (fun p => p.1 = k) = true
  · rw [if_pos h]
    rw [List.any_eq_true] at h ⊢
    obtain ⟨p, hp, hpk⟩ := h
    refine ⟨(k, v), List.mem_map.mpr ⟨p, hp, ?_⟩, by simp⟩
    simp only [decide_eq_true_eq] at hpk
    rw [if_pos hpk]
  · rw [if_neg h]
    rw [List.any_eq_true]
    exact ⟨(k, v), by simp⟩

theorem has_key_dict_set_other (r : Record) (k v k' : String) (h : has_key r k' = true)
    (hne : k' ≠ k) :
    has_key (dict_set r k v) k' = true := by
  unfold dict_set
  unfold has_key at h ⊢
  rw [List.any_eq_true] at h
  obtain ⟨p, hp, hpk⟩ := h
  simp only [decide_eq_true_eq] at hpk
  by_cases hr : r.any (fun p => p.1 = k) = true
  · rw [if_pos hr, List.any_eq_true]
    refine ⟨p, List.mem_map.mpr ⟨p, hp, ?_⟩, by simp [hpk]⟩
    rw [if_neg (by rw [hpk]; exact hne)]
  · rw [if_neg hr, List.any_eq_true]
    exact ⟨p, List.mem_append_left _ hp, by simp [hpk]⟩

theorem add_source_info_has_keys (name url scrape_method : String) (r : Record) :
    has_key (add_source_info name url scrape_method r) "Source_Website" = true ∧
    has_key (add_source_info name url scrape_method r) "Source_URL" = true ∧
    has_key (add_source_info name url scrape_method r) "Scrape_Method" = true := by
  unfold add_source_info
  refine ⟨?_, ?_, has_key_dict_set_same _ _ _⟩
  · apply has_key_dict_set_other _ _ _ _ _ (by simp)
    apply has_key_dict_set_other _ _ _ _ _ (by simp)
    exact has_key_dict_set_same _ _ _
  · apply has_key_dict_set_other _ _ _ _ _ (by simp)
    exact has_key_dict_set_same _ _ _

theorem smart_super_nonempty (outcomes : List SourceOutcome)
    (search_query timestamp : String) (h : collect_results outcomes ≠ []) :
    smart_scrape_multiple_websites_super outcomes search_query timestamp =
      drop_duplicates (collect_results outcomes) := by
  unfold smart_scrape_multiple_websites_super
  rw [if_pos]
  cases hc : (collect_results outcomes).isEmpty
  · rfl
  · exact absurd (List.isEmpty_iff.mp hc) h

theorem flatten_list_take (cap : Nat) :
    ∀ (items : List PyVal) (new_key : String) (i budget : Nat),
      flatten_list cap items new_key i budget =
        flatten_list cap (items.take budget) new_key i budget := by
  intro items
  induction items with
  | nil => intro new_key i budget; simp
  | cons item rest ih =>
    intro new_key i budget
    match budget with
    | 0 => rfl
    | b + 1 =>
      simp only [List.take_succ_cons]
      unfold flatten_list
      rw [ih new_key (i + 1) b]

/-! ## Claims -/

/-- C1 (amended): when no source yields any record, `super.py`'s
`smart_scrape_multiple_websites` returns the hardcoded `get_sample_data`
records (a non-empty ResultSet of placeholder rows) and `jim.py`'s variant
returns `None`; neither raises, but neither returns an empty ResultSet. -/
theorem claim_C1 (outcomes : List SourceOutcome) (search_query timestamp : String)
    (h : collect_results outcomes = []) :
    smart_scrape_multiple_websites_super outcomes search_query timestamp =
      get_sample_data search_query timestamp ∧
    smart_scrape_multiple_websites_jim outcomes = Option.none := by
  unfold smart_scrape_multiple_websites_super smart_scrape_multiple_websites_jim
  rw [h]
  exact ⟨rfl, rfl⟩

/-- C1 (counterexample): with a single failing source and the query
"unemployment", `super.py`'s orchestrator returns a non-empty ResultSet (the
sample records) and `jim.py`'s returns `None` — not the empty ResultSet the
claim asserts. -/
theorem claim_C1_counterexample :
    smart_scrape_multiple_websites_super [Except.error "connection refused"]
        "unemployment" "2024-01-01" ≠ [] ∧
    smart_scrape_multiple_websites_jim [Except.error "connection refused"] =
      Option.none := by
  exact ⟨by decide, rfl⟩

/-- C1 (witness): the amended claim applied to one concretely failing
source. -/
theorem claim_C1_witness :
    smart_scrape_multiple_websites_super [Except.error "connection refused"]
        "gdp statistics" "2024-01-01" =
      get_sample_data "gdp statistics" "2024-01-01" ∧
    smart_scrape_multiple_websites_jim [Except.error "connection refused"] =
      Option.none :=
  claim_C1 [Except.error "connection refused"] "gdp statistics" "2024-01-01" rfl

/-- C2: a source task that raises is absorbed by the fan-in loop: it
contributes no records, the records collected from the other sources are
exactly those collected without it, the final ResultSet is unchanged, and
every record of the other sources is a member of the final ResultSet. -/
theorem claim_C2 (pre post : List SourceOutcome) (e : String)
    (search_query timestamp : String)
    (h : collect_results (pre ++ post) ≠ []) :
    collect_results (pre ++ Except.error e :: post) =
      collect_results pre ++ collect_results post ∧
    smart_scrape_multiple_websites_super (pre ++ Except.error e :: post)
        search_query timestamp =
      smart_scrape_multiple_websites_super (pre ++ post) search_query timestamp ∧
    (∀ r ∈ collect_results (pre ++ post),
      r ∈ smart_scrape_multiple_websites_super (pre ++ Except.error e :: post)
            search_query timestamp) := by
  have hsplit : collect_results (pre ++ Except.error e :: post) =
      collect_results pre ++ collect_results post := by
    have heq : pre ++ Except.error e :: post = pre ++ ([Except.error e] ++ post) := by
      simp
    rw [heq, collect_results_append, collect_results_append,
        collect_results_error, List.nil_append]
  have hpp : collect_results (pre ++ post) =
      collect_results pre ++ collect_results post := collect_results_append pre post
  have hmain : smart_scrape_multiple_websites_super (pre ++ Except.error e :: post)
      search_query timestamp =
      smart_scrape_multiple_websites_super (pre ++ post) search_query timestamp := by
    unfold smart_scrape_multiple_websites_super
    rw [hsplit, hpp]
  refine ⟨hsplit, hmain, ?_⟩
  intro r hr
  rw [hmain, smart_super_nonempty _ _ _ h]
  exact (mem_drop_duplicates _ _).mpr hr

/-- C2 (witness): one successful source and one raising source. -/
theorem claim_C2_witness :
    collect_results ([Except.ok [[("Statistical_Match", "GDP growth: 2.5%")]]] ++
        Except.error "connection refused" :: []) =
      collect_results [Except.ok [[("Statistical_Match", "GDP growth: 2.5%")]]] ++
        collect_results [] :=
  (claim_C2 [Except.ok [[("Statistical_Match", "GDP growth: 2.5%")]]] []
    "connection refused" "gdp" "2024-01-01" (by decide)).1

/-- C3: `test_website_accessibility` returns `true` exactly when the HEAD
request completed with an HTTP status code below 400, and `false` whenever
the request raised (network error, DNS failure, timeout); it is a total
function of the request outcome, so it never raises. -/
theorem claim_C3 (response : Option Nat) :
    (test_website_accessibility response = true ↔
      ∃ status_code, response = some status_code ∧ status_code < 400) ∧
    test_website_accessibility Option.none = false := by
  refine ⟨?_, rfl⟩
  match response with
  | Option.none => simp [test_website_accessibility]
  | some status_code => simp [test_website_accessibility]

/-- C4: the query filter of `extract_html_data` is a pure filter — the
records returned for a non-empty query are a subset of the records returned
for no query, and a record survives exactly when some lowercased
whitespace-separated token of the query is a substring of the lowercased
string form of the record. -/
theorem claim_C4 (to_str : α → String) (search_query : String) (data : List α)
    (hq : search_query ≠ "") :
    (∀ r ∈ filter_by_search_query to_str search_query data,
        r ∈ filter_by_search_query to_str "" data) ∧
    (∀ r, r ∈ filter_by_search_query to_str search_query data ↔
        r ∈ data ∧ ∃ term ∈ search_terms search_query,
          py_in term (py_lower (to_str r)) = true) := by
  constructor
  · intro r hr
    rw [filter_by_search_query_no_query]
    exact ((mem_filter_by_search_query to_str search_query data r).mp hr).1
  · intro r
    rw [mem_filter_by_search_query]
    by_cases hd : data = []
    · subst hd
      simp
    · have h1 : search_query.isEmpty = false := by
        cases hc : search_query.isEmpty
        · rfl
        · exact absurd ((String.isEmpty_iff search_query).mp hc) hq
      have h2 : data.isEmpty = false := by
        cases hc : data.isEmpty
        · rfl
        · exact absurd (List.isEmpty_iff.mp hc) hd
      have hcond : (!search_query.isEmpty && !data.isEmpty) = true := by
        rw [h1, h2]; rfl
      constructor
      · rintro ⟨hmem, hsurv⟩
        have := hsurv hcond
        unfold matches_query at this
        rw [List.any_eq_true] at this
        exact ⟨hmem, this⟩
      · rintro ⟨hmem, hterm⟩
        refine ⟨hmem, fun _ => ?_⟩
        unfold matches_query
        rw [List.any_eq_true]
        exact hterm

/-- C4 (witness): a record matching the token "gdp" of the query "GDP rate"
survives the filter. -/
theorem claim_C4_witness :
    "nigeria gdp growth 2.5%" ∈
      filter_by_search_query (fun s => s) "GDP rate"
        ["nigeria gdp growth 2.5%", "weather report"] :=
  (((claim_C4 (fun s : String => s) "GDP rate"
      ["nigeria gdp growth 2.5%", "weather report"] (by decide)).2)
    "nigeria gdp growth 2.5%").mpr (by decide)

/-- C5: `drop_duplicates` (the dedup step applied to the merged ResultSet)
is idempotent, leaves no two structurally equal records, and removes only
exact duplicates: a record is in the output iff it is in the input. -/
theorem claim_C5 (X : List Record) :
    drop_duplicates (drop_duplicates X) = drop_duplicates X ∧
    (drop_duplicates X).Nodup ∧
    ∀ r : Record, r ∈ drop_duplicates X ↔ r ∈ X :=
  ⟨drop_duplicates_idem X, nodup_drop_duplicates X,
   fun r => mem_drop_duplicates X r⟩

/-- C6: candidate selection keeps exactly the catalog entries whose category
is in the selected set (all of them when the set is empty), sorts the
survivors ascending by priority, and truncates to `max_websites`. -/
theorem claim_C6 (catalog : List Website) (selected_categories : List String)
    (max_websites : Nat) :
    select_websites catalog selected_categories max_websites =
      ((filter_by_categories catalog selected_categories).insertionSort
        priority_le).take max_websites ∧
    List.Perm
      ((filter_by_categories catalog selected_categories).insertionSort priority_le)
      (filter_by_categories catalog selected_categories) ∧
    List.Sorted priority_le
      ((filter_by_categories catalog selected_categories).insertionSort priority_le) ∧
    (selected_categories = [] →
      filter_by_categories catalog selected_categories = catalog) ∧
    (∀ w : Website, selected_categories ≠ [] →
      (w ∈ filter_by_categories catalog selected_categories ↔
        w ∈ catalog ∧ w.category ∈ selected_categories)) := by
  refine ⟨rfl, List.perm_insertionSort priority_le _,
    List.sorted_insertionSort priority_le _, ?_, ?_⟩
  · intro h
    simp [filter_by_categories, h]
  · intro w hne
    unfold filter_by_categories
    rw [if_pos hne, List.mem_filter]
    constructor
    · rintro ⟨h1, h2⟩
      exact ⟨h1, by simpa [List.elem_iff] using h2⟩
    · rintro ⟨h1, h2⟩
      exact ⟨h1, by simpa [List.elem_iff] using h2⟩

/-- C7: the PDF backend loop stops at the first backend whose call returned a
non-empty record list, the result is exactly that backend's records (so when
each of its records carries the backend's `Parser` identifier, every result
record does), and when every backend raises or returns empty the fallback
emits at most one basic-extraction record. -/
theorem claim_C7 (pre rest : List (Except String (List Record)))
    (data : List Record) (backend_id : String)
    (pypdf2_text : Except String String) (raw : List Char)
    (url timestamp : String)
    (hpre : ∀ o ∈ pre, fails_or_empty o = true) (hdata : data ≠ [])
    (htag : ∀ r ∈ data, ("Parser", backend_id) ∈ r) :
    scrape_pdf_from_content (pre ++ Except.ok data :: rest) pypdf2_text raw
        url timestamp = data ∧
    (∀ r ∈ scrape_pdf_from_content (pre ++ Except.ok data :: rest) pypdf2_text
        raw url timestamp, ("Parser", backend_id) ∈ r) ∧
    (∀ methods, (∀ o ∈ methods, fails_or_empty o = true) →
        (scrape_pdf_from_content methods pypdf2_text raw url timestamp).length ≤ 1) := by
  have htry := try_pdf_methods_first_success pre rest data hpre hdata
  have h1 : scrape_pdf_from_content (pre ++ Except.ok data :: rest) pypdf2_text
      raw url timestamp = data := by
    unfold scrape_pdf_from_content
    rw [htry]
    rw [if_pos]
    cases hc : data.isEmpty
    · rfl
    · exact absurd (List.isEmpty_iff.mp hc) hdata
  refine ⟨h1, ?_, ?_⟩
  · intro r hr
    rw [h1] at hr
    exact htag r hr
  · intro methods hm
    unfold scrape_pdf_from_content
    rw [try_pdf_methods_all_fail methods hm]
    simp only [List.isEmpty_nil, Bool.not_true]
    rw [if_neg (by simp)]
    exact basic_fallback_records_length_le_one pypdf2_text raw url timestamp

/-- C7 (witness): backend 1 raises, backend 2 yields 3 statistic records of
the pdfplumber constructor — the result is exactly those 3 records. -/
theorem claim_C7_witness :
    scrape_pdf_from_content
        ([Except.error "pdfplumber raised"] ++
          Except.ok demo_pdfplumber_records :: [])
        (Except.error "PyPDF2 raised") []
        "https://nigerianstat.gov.ng/report.pdf" "2024-01-01" =
      demo_pdfplumber_records :=
  (claim_C7 [Except.error "pdfplumber raised"] [] demo_pdfplumber_records
    "pdfplumber" (Except.error "PyPDF2 raised") []
    "https://nigerianstat.gov.ng/report.pdf" "2024-01-01"
    (by decide) (by decide) (by decide)).1

/-- C8 (amended): `my.py`'s `extract_all_tables` runs both the pandas pass
and the manual pass over the same tables, so with empty search terms a page
of valid tables (each with at least 2 rows and no empty rows) yields one
manual entry per table plus one pandas entry per table with at least 2 data
rows — not exactly N entries. -/
theorem claim_C8 (page : List HtmlTable) (df_to_string : Df → String)
    (url : String)
    (h : ∀ t ∈ page, 2 ≤ t.length ∧ ∀ row ∈ t, row ≠ []) :
    (extract_all_tables_my page [] df_to_string url).length =
      (page.filter (fun t => df_qualifies (read_html_table t))).length +
        page.length := by
  unfold extract_all_tables_my
  rw [List.length_append]
  rw [pandas_pass_length_no_terms df_to_string url 0 page]
  rw [manual_pass_length_no_terms df_to_string url 0 page h]

/-- C8 (counterexample): a document with exactly one syntactically valid
3-row table yields 2 ExtractedTable entries (one pandas, one manual), not
exactly 1. -/
theorem claim_C8_counterexample :
    (extract_all_tables_my
        [[["Indicator", "Value"], ["GDP growth", "2.5"], ["Inflation", "28.9"]]]
        [] (fun _ => "") "https://example.com").length = 2 := by
  rfl

/-- C8 (witness): the amended count formula on the same one-table page. -/
theorem claim_C8_witness :
    (extract_all_tables_my
        [[["Indicator", "Value"], ["GDP growth", "2.5"], ["Inflation", "28.9"]]]
        [] (fun _ => "nigeria") "https://example.com").length =
      ([[["Indicator", "Value"], ["GDP growth", "2.5"], ["Inflation", "28.9"]]].filter
          (fun t => df_qualifies (read_html_table t))).length +
        [[["Indicator", "Value"], ["GDP growth", "2.5"], ["Inflation", "28.9"]]].length :=
  claim_C8
    [[["Indicator", "Value"], ["GDP growth", "2.5"], ["Inflation", "28.9"]]]
    (fun _ => "nigeria") "https://example.com" (by decide)

/-- C9 (amended): every record returned through `scrape_website` carries the
provenance fields `Source_Website`, `Source_URL` and `Scrape_Method`, which
the orchestrator writes into each record unconditionally; `Scrape_Date` is
not among them (it is set by some extractors only). -/
theorem claim_C9 (name url scrape_method : String) (extracted : List Record)
    (r : Record) (h : r ∈ scrape_website_records name url scrape_method extracted) :
    has_key r "Source_Website" = true ∧
    has_key r "Source_URL" = true ∧
    has_key r "Scrape_Method" = true := by
  unfold scrape_website_records at h
  rcases List.mem_map.mp h with ⟨r0, _, rfl⟩
  exact add_source_info_has_keys name url scrape_method r0

/-- C9 (counterexample): a record produced through the JSON extractor path
has no `Scrape_Date` field (neither `parse_json_data` nor `scrape_website`
sets one), refuting that every record includes `scrape_date`. -/
theorem claim_C9_counterexample :
    scrape_website_json "UN Data Nigeria" "https://data.un.org/en/iso/ng.html"
        "api" (PyVal.dict []) =
      [[("Source_URL", "https://data.un.org/en/iso/ng.html"),
        ("Data_Type", "JSON"),
        ("Source_Website", "UN Data Nigeria"),
        ("Scrape_Method", "api")]] ∧
    has_key [("Source_URL", "https://data.un.org/en/iso/ng.html"),
        ("Data_Type", "JSON"),
        ("Source_Website", "UN Data Nigeria"),
        ("Scrape_Method", "api")] "Scrape_Date" = false := by
  exact ⟨rfl, rfl⟩

/-- C9 (witness): the amended claim applied to a concrete record. -/
theorem claim_C9_witness :
    has_key [("Statistical_Match", "GDP growth: 2.5%"),
        ("Source_Website", "World Bank Nigeria Data"),
        ("Source_URL", "https://data.worldbank.org/country/nigeria"),
        ("Scrape_Method", "direct")] "Source_Website" = true ∧
    has_key [("Statistical_Match", "GDP growth: 2.5%"),
        ("Source_Website", "World Bank Nigeria Data"),
        ("Source_URL", "https://data.worldbank.org/country/nigeria"),
        ("Scrape_Method", "direct")] "Source_URL" = true ∧
    has_key [("Statistical_Match", "GDP growth: 2.5%"),
        ("Source_Website", "World Bank Nigeria Data"),
        ("Source_URL", "https://data.worldbank.org/country/nigeria"),
        ("Scrape_Method", "direct")] "Scrape_Method" = true :=
  claim_C9 "World Bank Nigeria Data" "https://data.worldbank.org/country/nigeria"
    "direct" [[("Statistical_Match", "GDP growth: 2.5%")]] _ (by decide)

/-- C10: `flatten_dict` expands at most the first 2 elements of any list
value in `super.py` and at most the first 3 in `jim.py` (elements beyond the
slice never influence the output), joins nested keys with underscores, and
stringifies leaf values — demonstrated on a nested input whose 3-element
list is truncated to 2 entries by `super.py` and kept whole by `jim.py`. -/
theorem claim_C10 :
    (∀ (items : List PyVal) (new_key : String),
        flatten_val 2 (PyVal.list items) new_key =
          flatten_val 2 (PyVal.list (items.take 2)) new_key) ∧
    (∀ (items : List PyVal) (new_key : String),
        flatten_val 3 (PyVal.list items) new_key =
          flatten_val 3 (PyVal.list (items.take 3)) new_key) ∧
    flatten_dict_super
        [("a", PyVal.dict [("b", PyVal.int 1)]),
         ("c", PyVal.list [PyVal.str "x", PyVal.str "y", PyVal.str "z"])] "" =
      [("a_b", "1"), ("c_0", "x"), ("c_1", "y")] ∧
    flatten_dict_jim
        [("a", PyVal.dict [("b", PyVal.int 1)]),
         ("c", PyVal.list [PyVal.str "x", PyVal.str "y", PyVal.str "z"])] "" =
      [("a_b", "1"), ("c_0", "x"), ("c_1", "y"), ("c_2", "z")] := by
  refine ⟨?_, ?_, rfl, rfl⟩
  · intro items new_key
    show flatten_list 2 items new_key 0 2 = flatten_list 2 (items.take 2) new_key 0 2
    exact flatten_list_take 2 items new_key 0 2
  · intro items new_key
    show flatten_list 3 items new_key 0 3 = flatten_list 3 (items.take 3) new_key 0 3
    exact flatten_list_take 3 items new_key 0 3

end NigeriaScraper
